import Mathlib

/-
Verification development for the "Perspective by Adi" photography-portfolio
backend (FastAPI + Mongo + Pillow).  The definitions below are a shallow
embedding of src/main.py (the canonical, validating/resizing variant):
the document store is a record of in-memory lists, route handlers are pure
functions returning an HTTP-style result together with the new state, and
the opaque parts (Pillow byte encoding, uuid generation, actual disk I/O)
are abstracted to exactly the data the handlers branch on.
-/

namespace PBA

/-- An HTTP error response: status code plus detail message
(mirrors FastAPI HTTPException(status_code=..., detail=...)). -/
structure HTTPError where
  status : Nat
  detail : String
deriving DecidableEq

/-! ## Image model (Pillow) -/

/-- The data of a decoded Pillow image that src/main.py line 146-156 branches
on: pixel dimensions, the mode string (such as RGB, RGBA, LA, P), and
whether the string transparency occurs as a key of img.info. -/
structure PILImage where
  width : Nat
  height : Nat
  mode : String
  transparencyInInfo : Bool
deriving DecidableEq

/-- Line 148 of src/main.py:
has_alpha = img.mode in (RGBA, LA) or (img.mode == P and transparency in img.info). -/
def has_alpha (img : PILImage) : Bool :=
  (img.mode == "RGBA" || img.mode == "LA") || (img.mode == "P" && img.transparencyInInfo)

/-- Python round-half-to-even on an exact rational, as in round(x) for a
nonnegative float x in lines 155.  (The Python code computes
scale = RESIZE_MAX_SIDE / float(max_side) and w * scale in binary floating
point; we model the arithmetic exactly over the rationals.) -/
def pyRound (q : Rat) : Int :=
  let f := ⌊q⌋
  let frac := q - (f : Rat)
  if frac < 1/2 then f
  else if 1/2 < frac then f + 1
  else if f % 2 = 0 then f else f + 1

/-- Lines 151-156 of src/main.py: the dimensions of the image that gets
encoded.  max_side = max(w, h); if max_side > RESIZE_MAX_SIDE the new size is
(int(round(w * scale)), int(round(h * scale))) with
scale = RESIZE_MAX_SIDE / max_side; otherwise the size is unchanged. -/
def resize_dims (resize_max_side : Nat) (w h : Nat) : Nat × Nat :=
  let max_side := max w h
  if max_side > resize_max_side then
    let scale : Rat := (resize_max_side : Rat) / (max_side : Rat)
    ((pyRound ((w : Rat) * scale)).toNat, (pyRound ((h : Rat) * scale)).toNat)
  else (w, h)

/-- The observable output of _resize_and_compress: dimensions of the encoded
image, the mode it was encoded from, the file extension and the MIME type.
(The encoded byte string itself is produced by Pillow and is opaque.) -/
structure ProcessedMeta where
  width : Nat
  height : Nat
  outMode : String
  ext : String
  mime : String
deriving DecidableEq

/-- Lines 146-175 of src/main.py, _resize_and_compress: detect alpha from the
original mode, resize if the longer side exceeds the cap, then choose WEBP
when alpha is present and JPEG otherwise (converting to RGB first unless the
mode is already RGB or L). -/
def _resize_and_compress (resize_max_side : Nat) (img : PILImage) : ProcessedMeta :=
  let alpha := has_alpha img
  let wh := resize_dims resize_max_side img.width img.height
  if alpha then
    { width := wh.1, height := wh.2, outMode := img.mode, ext := ".webp", mime := "image/webp" }
  else
    let outMode := if img.mode == "RGB" || img.mode == "L" then img.mode else "RGB"
    { width := wh.1, height := wh.2, outMode := outMode, ext := ".jpg", mime := "image/jpeg" }

/-! ## Basic lemmas about the resize arithmetic -/

theorem pyRound_le_of_le {q : Rat} {n : Nat} (h : q ≤ (n : Rat)) :
    pyRound q ≤ (n : Int) := by
  have hfl : ⌊q⌋ ≤ (n : Int) := by
    have := Int.floor_le_floor h
    simpa using this
  unfold pyRound
  dsimp only
  split_ifs with h1 h2 h3
  · exact hfl
  · have hne : ⌊q⌋ ≠ (n : Int) := by
      intro hEq
      apply h1
      have : q - (⌊q⌋ : Rat) ≤ 0 := by
        rw [hEq]
        push_cast
        linarith
      linarith
    omega
  · omega
  · have hne : ⌊q⌋ ≠ (n : Int) := by
      intro hEq
      apply h1
      have : q - (⌊q⌋ : Rat) ≤ 0 := by
        rw [hEq]
        push_cast
        linarith
      linarith
    omega

theorem resize_dims_le (cap w h : Nat) (hgt : max w h > cap) :
    (resize_dims cap w h).1 ≤ cap ∧ (resize_dims cap w h).2 ≤ cap := by
  have hm : (0 : Rat) < (max w h : Nat) := by
    have : 0 < max w h := lt_of_le_of_lt (Nat.zero_le cap) hgt
    exact_mod_cast this
  have key : ∀ d : Nat, d ≤ max w h →
      (pyRound ((d : Rat) * ((cap : Rat) / ((max w h : Nat) : Rat)))).toNat ≤ cap := by
    intro d hd
    have hq : (d : Rat) * ((cap : Rat) / ((max w h : Nat) : Rat)) ≤ (cap : Rat) := by
      rw [mul_div_assoc']
      rw [div_le_iff₀ hm]
      have : (d : Rat) ≤ ((max w h : Nat) : Rat) := by exact_mod_cast hd
      calc (d : Rat) * (cap : Rat) ≤ ((max w h : Nat) : Rat) * (cap : Rat) := by
            apply mul_le_mul_of_nonneg_right this
            positivity
        _ = (cap : Rat) * ((max w h : Nat) : Rat) := by ring
    have := pyRound_le_of_le hq
    omega
  constructor
  · simp only [resize_dims, hgt, if_true]
    exact key w (Nat.le_max_left w h)
  · simp only [resize_dims, hgt, if_true]
    exact key h (Nat.le_max_right w h)

theorem resize_dims_id (cap w h : Nat) (hle : max w h ≤ cap) :
    resize_dims cap w h = (w, h) := by
  have : ¬ (max w h > cap) := by omega
  simp [resize_dims, this]

/-! ## Document store and domain records (schemas.py, database.py) -/

/-- schemas.py Category: name, slug, optional description, optional cover URL
(URLs modelled as strings). -/
structure Category where
  name : String
  slug : String
  description : Option String
  cover_url : Option String
deriving DecidableEq

/-- schemas.py Folder. -/
structure Folder where
  name : String
  slug : String
  category_slug : String
  parent_id : Option String
  description : Option String
deriving DecidableEq

/-- schemas.py Image (named ImageRec here to avoid clashing with the Pillow
image type above). -/
structure ImageRec where
  url : String
  alt : Option String
  width : Option Nat
  height : Option Nat
  category_slug : String
  folder_id : Option String
  tags : Option (List String)
deriving DecidableEq

/-- An image document as persisted in Mongo: the record plus its _id
(rendered as the 24-hex-character string form of the ObjectId). -/
structure StoredImage where
  oid : String
  record : ImageRec
deriving DecidableEq

/-- The mutable state the routes touch: the category, folder and image
collections of the document store.  (The contactmessage collection is not
involved in any claim.) -/
structure DB where
  categories : List Category
  folders : List Folder
  images : List StoredImage
deriving DecidableEq

/-- GET /categories (lines 72-75): the category collection, in store order. -/
def list_categories (db : DB) : List Category :=
  db.categories

/-- POST /categories (lines 77-82): reject with 400 when find_one on the slug
returns a document, otherwise insert the payload. -/
def create_category (db : DB) (payload : Category) : Except HTTPError Unit × DB :=
  if (db.categories.find? (fun c => c.slug == payload.slug)).isSome then
    (Except.error ⟨400, "Category slug already exists"⟩, db)
  else
    (Except.ok (), { db with categories := db.categories ++ [payload] })

/-- POST /folders (lines 95-100): reject with 400 "Category not found" when no
category carries the referenced slug, otherwise insert the payload. -/
def create_folder (db : DB) (payload : Folder) : Except HTTPError Unit × DB :=
  if !(db.categories.find? (fun c => c.slug == payload.category_slug)).isSome then
    (Except.error ⟨400, "Category not found"⟩, db)
  else
    (Except.ok (), { db with folders := db.folders ++ [payload] })

/-- POST /images (lines 113-118): same referential check as create_folder.
The _id assigned by the store is passed in as new_oid. -/
def create_image (db : DB) (new_oid : String) (payload : ImageRec) :
    Except HTTPError Unit × DB :=
  if !(db.categories.find? (fun c => c.slug == payload.category_slug)).isSome then
    (Except.error ⟨400, "Category not found"⟩, db)
  else
    (Except.ok (), { db with images := db.images ++ [⟨new_oid, payload⟩] })

/-! ## POST /upload -/

/-- Line 50: ALLOWED_IMAGE_TYPES. -/
def allowed_image_types : List String :=
  ["image/jpeg", "image/png", "image/webp", "image/jpg", "image/pjpeg"]

/-- Python str.lower on the content type (line 181), as a character-wise map
(the same thing String.toLower does, stated in a way the kernel can
evaluate). -/
def str_lower (s : String) : String :=
  String.mk (s.data.map Char.toLower)

/-- The 413 detail string of line 196. -/
def too_large_detail (max_upload_mb : Nat) : String :=
  "File too large. Max " ++ toString max_upload_mb ++ "MB"

/-- Lines 187-197: the streaming read loop.  The body is modelled by the
sizes of the successive chunks returned by file.read (an empty chunk ends
the stream).  State: read_total, and the number of bytes appended to raw so
far.  On each chunk, read_total is bumped first; when it exceeds max_bytes
the handler aborts with 413 before the chunk is appended. -/
def read_chunks (max_upload_mb : Nat) :
    List Nat → Nat → Nat → Except HTTPError Unit × Nat × Nat
  | [], read_total, buffered => (Except.ok (), read_total, buffered)
  | chunk :: rest, read_total, buffered =>
    if chunk == 0 then (Except.ok (), read_total, buffered)
    else
      let rt := read_total + chunk
      if rt > max_upload_mb * 1024 * 1024 then
        (Except.error ⟨413, too_large_detail max_upload_mb⟩, rt, buffered)
      else
        read_chunks max_upload_mb rest rt (buffered + chunk)

/-- The response body of a successful POST /upload, restricted to the fields
determined by the model (the url and filename contain a fresh uuid and the
processed byte count is produced by Pillow, so they are left out). -/
structure UploadOk where
  width : Nat
  height : Nat
  ext : String
  mime : String
  original_size_bytes : Nat
  max_side_px : Nat
  quality : Nat
deriving DecidableEq

/-- What the handler did before returning: how many bytes it read and
buffered, and whether it reached the decode, resize and file-write steps. -/
structure UploadTrace where
  bytesRead : Nat
  bytesBuffered : Nat
  decodeAttempted : Bool
  resizeAttempted : Bool
  fileWritten : Bool
deriving DecidableEq

/-- POST /upload (lines 178-231).  content_type is the declared content type
of the multipart file (none when absent); chunks are the chunk sizes
delivered by file.read; decoded is the outcome of
Image.open(BytesIO(raw)).load() on the accumulated bytes — some img when
Pillow decodes them, none when it raises (in particular a zero-byte body
never decodes).  Disk-write failure (line 216) is not modelled: the
success path writes the file. -/
def upload_image (max_upload_mb resize_max_side jpeg_quality webp_quality : Nat)
    (content_type : Option String) (chunks : List Nat) (decoded : Option PILImage) :
    Except HTTPError UploadOk × UploadTrace :=
  let ct := str_lower (content_type.getD "")
  if !allowed_image_types.contains ct then
    (Except.error ⟨400, "Only JPEG, PNG, or WEBP images are allowed"⟩,
     ⟨0, 0, false, false, false⟩)
  else
    match read_chunks max_upload_mb chunks 0 0 with
    | (Except.error e, rt, buf) => (Except.error e, ⟨rt, buf, false, false, false⟩)
    | (Except.ok _, rt, buf) =>
      match decoded with
      | none =>
        (Except.error ⟨400, "Invalid or unsupported image"⟩, ⟨rt, buf, true, false, false⟩)
      | some img =>
        let meta := _resize_and_compress resize_max_side img
        (Except.ok
          { width := meta.width, height := meta.height, ext := meta.ext,
            mime := meta.mime, original_size_bytes := rt,
            max_side_px := resize_max_side,
            quality := if meta.mime == "image/jpeg" then jpeg_quality else webp_quality },
         ⟨rt, buf, true, max img.width img.height > resize_max_side, true⟩)

/-! ## DELETE /images/{id} -/

/-- A hexadecimal digit, as accepted by the BSON ObjectId parser. -/
def isHexChar (c : Char) : Bool :=
  c.isDigit || (('a' ≤ c && c ≤ 'f') || ('A' ≤ c && c ≤ 'F'))

/-- bson ObjectId.is_valid on a string argument: exactly 24 hexadecimal
characters. -/
def objectid_is_valid (s : String) : Bool :=
  s.length == 24 && s.toList.all isHexChar

/-- Equality of two ObjectIds given as hex strings: the parser is
case-insensitive, documents match by the underlying 12-byte value. -/
def oidEq (a b : String) : Bool :=
  a.toLower == b.toLower

/-- Lines 130-136: marker = "/uploads/"; if it occurs in the url, the file
name is everything after its first occurrence (url.split(marker, 1)[1]). -/
def filename_from_url (url : String) : Option String :=
  match url.splitOn "/uploads/" with
  | [] => none
  | [_] => none
  | _ :: rest => some (String.intercalate "/uploads/" rest)

/-- DELETE /images/{image_id} (lines 120-142).  The uploads directory is
modelled as the list of file names it contains; file-removal failures cannot
occur in the model, matching the code which swallows them.  Returns the
response, the new store and the new directory contents. -/
def delete_image (db : DB) (fs : List String) (image_id : String) :
    Except HTTPError Bool × DB × List String :=
  if !objectid_is_valid image_id then
    (Except.error ⟨400, "Invalid image id"⟩, db, fs)
  else
    match db.images.find? (fun i => oidEq i.oid image_id) with
    | none => (Except.error ⟨404, "Image not found"⟩, db, fs)
    | some doc =>
      let fs2 := match filename_from_url doc.record.url with
        | some fname => if fs.contains fname then fs.erase fname else fs
        | none => fs
      (Except.ok true,
       { db with images := db.images.eraseP (fun i => oidEq i.oid image_id) }, fs2)

/-! ## POST /admin/seed -/

/-- Lines 246-251: the fixed list of default categories. -/
def base_categories : List Category :=
  [ { name := "Weddings", slug := "weddings",
      description := some "Timeless wedding stories",
      cover_url := some "https://images.unsplash.com/photo-1522673607200-164d1b6ce486?q=80&w=1600&auto=format&fit=crop" },
    { name := "Portraits", slug := "portraits",
      description := some "Studio and environmental portraits",
      cover_url := some "https://images.unsplash.com/photo-1506794778202-cad84cf45f1d?q=80&w=1600&auto=format&fit=crop" },
    { name := "Events", slug := "events",
      description := some "Corporate and social events",
      cover_url := some "https://images.unsplash.com/photo-1531058020387-3be344556be6?q=80&w=1600&auto=format&fit=crop" },
    { name := "Travel", slug := "travel",
      description := some "Places and stories from the road",
      cover_url := some "https://images.unsplash.com/photo-1500530855697-b586d89ba3ee?q=80&w=1600&auto=format&fit=crop" } ]

/-- Lines 253-257: for each default category, insert it unless a category
with its slug exists; count the insertions. -/
def seed_loop : List Category → DB → DB × Nat
  | [], db => (db, 0)
  | cat :: rest, db =>
    if (db.categories.find? (fun c => c.slug == cat.slug)).isSome then
      seed_loop rest db
    else
      let step := seed_loop rest { db with categories := db.categories ++ [cat] }
      (step.1, step.2 + 1)

/-- POST /admin/seed (lines 240-259).  owner_key_env models
os.getenv("OWNER_KEY") (none when the variable is unset); the Python guard
"if not expected or owner_key != expected" treats both an unset and an empty
value as falsy.  On success returns (seeded count, total categories). -/
def admin_seed (owner_key_env : Option String) (owner_key : String) (db : DB) :
    Except HTTPError (Nat × Nat) × DB :=
  match owner_key_env with
  | none => (Except.error ⟨401, "Unauthorized"⟩, db)
  | some expected =>
    if expected == "" || owner_key != expected then
      (Except.error ⟨401, "Unauthorized"⟩, db)
    else
      let step := seed_loop base_categories db
      (Except.ok (step.2, step.1.categories.length), step.1)

/-! ## Helper lemmas -/

theorem rc_dims (cap : Nat) (img : PILImage) :
    (_resize_and_compress cap img).width = (resize_dims cap img.width img.height).1 ∧
    (_resize_and_compress cap img).height = (resize_dims cap img.width img.height).2 := by
  unfold _resize_and_compress
  dsimp only
  split_ifs <;> exact ⟨rfl, rfl⟩

theorem rc_mime (cap : Nat) (img : PILImage) :
    (_resize_and_compress cap img).mime =
      (if has_alpha img then "image/webp" else "image/jpeg") := by
  unfold _resize_and_compress
  dsimp only
  split_ifs <;> rfl

theorem rc_outMode (cap : Nat) (img : PILImage) (h : has_alpha img = false) :
    (_resize_and_compress cap img).outMode = "RGB" ∨
    (_resize_and_compress cap img).outMode = "L" := by
  unfold _resize_and_compress
  dsimp only
  rw [h]
  simp only [Bool.false_eq_true, if_false]
  by_cases hm : (img.mode == "RGB" || img.mode == "L") = true
  · rw [if_pos hm]
    rcases Bool.or_eq_true_iff.mp hm with h1 | h1
    · left; exact beq_iff_eq.mp h1
    · right; exact beq_iff_eq.mp h1
  · rw [if_neg hm]
    left; rfl

theorem upload_image_ok_meta
    (mu cap jq wq : Nat) (ct : Option String) (chunks : List Nat)
    (img : PILImage) (res : UploadOk) (tr : UploadTrace)
    (hok : upload_image mu cap jq wq ct chunks (some img) = (Except.ok res, tr)) :
    res.width = (_resize_and_compress cap img).width ∧
    res.height = (_resize_and_compress cap img).height ∧
    res.mime = (_resize_and_compress cap img).mime := by
  unfold upload_image at hok
  dsimp only at hok
  split at hok
  · simp at hok
  · split at hok
    · simp at hok
    · simp only [Prod.mk.injEq, Except.ok.injEq] at hok
      obtain ⟨h1, -⟩ := hok
      subst h1
      exact ⟨rfl, rfl, rfl⟩

theorem has_alpha_iff (img : PILImage) :
    has_alpha img = true ↔
      (img.mode = "RGBA" ∨ img.mode = "LA" ∨
       (img.mode = "P" ∧ img.transparencyInInfo = true)) := by
  unfold has_alpha
  simp only [Bool.or_eq_true, Bool.and_eq_true, beq_iff_eq]
  tauto

/-! ## Claim theorems -/

/-- Claim C1: for every image upload accepted by POST /upload, if the decoded
input has a longer dimension exceeding the configured max side, the output
longer dimension is at most that cap; if the input was already within the
cap, the output dimensions equal the input dimensions (no upscaling). -/
theorem C1_upload_longer_side_capped
    (mu cap jq wq : Nat) (ct : Option String) (chunks : List Nat)
    (img : PILImage) (res : UploadOk) (tr : UploadTrace)
    (hok : upload_image mu cap jq wq ct chunks (some img) = (Except.ok res, tr)) :
    (max img.width img.height > cap → max res.width res.height ≤ cap) ∧
    (max img.width img.height ≤ cap → res.width = img.width ∧ res.height = img.height) := by
  obtain ⟨hw, hh, -⟩ := upload_image_ok_meta mu cap jq wq ct chunks img res tr hok
  obtain ⟨dw, dh⟩ := rc_dims cap img
  constructor
  · intro hgt
    obtain ⟨l1, l2⟩ := resize_dims_le cap img.width img.height hgt
    rw [hw, dw, hh, dh]
    omega
  · intro hle
    rw [hw, dw, hh, dh, resize_dims_id cap _ _ hle]
    exact ⟨rfl, rfl⟩

theorem C1_upload_longer_side_capped_w :
    max 100 50 ≤ 4096 ∧
    ((⟨100, 50, ".jpg", "image/jpeg", 10, 4096, 92⟩ : UploadOk).width = 100 ∧
     (⟨100, 50, ".jpg", "image/jpeg", 10, 4096, 92⟩ : UploadOk).height = 50) :=
  ⟨by decide,
   (C1_upload_longer_side_capped 35 4096 92 92 (some "image/png") [10]
      ⟨100, 50, "RGB", false⟩ ⟨100, 50, ".jpg", "image/jpeg", 10, 4096, 92⟩
      ⟨10, 10, true, false, true⟩ rfl).2 (by decide)⟩

/-- Claim C2: for every accepted upload, the output MIME type is image/webp
exactly when the decoded input has an alpha/transparency channel (RGBA mode,
LA mode, or P mode with a transparency entry), and image/jpeg otherwise,
the non-alpha input having been converted to RGB unless already RGB or L. -/
theorem C2_upload_mime_iff_alpha
    (mu cap jq wq : Nat) (ct : Option String) (chunks : List Nat)
    (img : PILImage) (res : UploadOk) (tr : UploadTrace)
    (hok : upload_image mu cap jq wq ct chunks (some img) = (Except.ok res, tr)) :
    (res.mime = "image/webp" ↔
      (img.mode = "RGBA" ∨ img.mode = "LA" ∨
       (img.mode = "P" ∧ img.transparencyInInfo = true))) ∧
    (has_alpha img = false →
      res.mime = "image/jpeg" ∧
      ((_resize_and_compress cap img).outMode = "RGB" ∨
       (_resize_and_compress cap img).outMode = "L")) := by
  obtain ⟨-, -, hm⟩ := upload_image_ok_meta mu cap jq wq ct chunks img res tr hok
  rw [hm, rc_mime]
  constructor
  · rw [← has_alpha_iff]
    by_cases ha : has_alpha img
    · simp [ha]
    · simp only [Bool.not_eq_true] at ha
      simp [ha]
  · intro ha
    refine ⟨by simp [ha], rc_outMode cap img ha⟩

theorem C2_upload_mime_iff_alpha_w :
    ((⟨64, 64, ".webp", "image/webp", 10, 4096, 80⟩ : UploadOk).mime = "image/webp" ↔
      ("RGBA" = "RGBA" ∨ "RGBA" = "LA" ∨ ("RGBA" = "P" ∧ false = true))) :=
  (C2_upload_mime_iff_alpha 35 4096 92 80 (some "image/png") [10]
    ⟨64, 64, "RGBA", false⟩ ⟨64, 64, ".webp", "image/webp", 10, 4096, 80⟩
    ⟨10, 10, true, false, true⟩ rfl).1

/-- Claim C8: every upload whose declared content type is outside the fixed
allow-list is rejected with 400 and the trace of the handler shows that no
byte of the body was read and no decode was attempted. -/
theorem C8_bad_content_type_rejected
    (mu cap jq wq : Nat) (ct : Option String) (chunks : List Nat)
    (decoded : Option PILImage)
    (h : allowed_image_types.contains (str_lower (ct.getD "")) = false) :
    upload_image mu cap jq wq ct chunks decoded =
      (Except.error ⟨400, "Only JPEG, PNG, or WEBP images are allowed"⟩,
       ⟨0, 0, false, false, false⟩) := by
  unfold upload_image
  dsimp only
  rw [h]
  rfl

theorem C8_bad_content_type_rejected_w :
    allowed_image_types.contains (str_lower ((some "text/plain").getD "")) = false ∧
    upload_image 35 4096 92 92 (some "text/plain") [5] none =
      (Except.error ⟨400, "Only JPEG, PNG, or WEBP images are allowed"⟩,
       ⟨0, 0, false, false, false⟩) :=
  ⟨by decide,
   C8_bad_content_type_rejected 35 4096 92 92 (some "text/plain") [5] none (by decide)⟩

/-- Claim C10: when the OWNER_KEY environment variable is unset, every
POST /admin/seed request is rejected as unauthorized and the store is
unchanged, whatever owner_key value was submitted. -/
theorem C10_seed_unset_key_rejected (owner_key : String) (db : DB) :
    admin_seed none owner_key db = (Except.error ⟨401, "Unauthorized"⟩, db) := rfl

theorem find_slug_isSome (l : List Category) (s : String)
    (h : ∃ c ∈ l, c.slug = s) :
    (l.find? (fun c => c.slug == s)).isSome = true := by
  rw [List.find?_isSome]
  obtain ⟨c, hc, hs⟩ := h
  exact ⟨c, hc, by simp [hs]⟩

theorem find_slug_none (l : List Category) (s : String)
    (h : ∀ c ∈ l, c.slug ≠ s) :
    l.find? (fun c => c.slug == s) = none := by
  rw [List.find?_eq_none]
  intro c hc
  simp [h c hc]

/-- Claim C4: a POST /categories whose slug equals the slug of a stored
category fails with the duplicate-slug conflict whatever the other fields
are, and a subsequent GET /categories returns the same list as before. -/
theorem C4_duplicate_slug_conflict (db : DB) (payload : Category)
    (h : ∃ c ∈ db.categories, c.slug = payload.slug) :
    create_category db payload =
      (Except.error ⟨400, "Category slug already exists"⟩, db) ∧
    list_categories (create_category db payload).2 = list_categories db := by
  have hfind := find_slug_isSome db.categories payload.slug h
  have heq : create_category db payload =
      (Except.error ⟨400, "Category slug already exists"⟩, db) := by
    unfold create_category
    rw [if_pos hfind]
  exact ⟨heq, by rw [heq]⟩

theorem C4_duplicate_slug_conflict_w :
    (∃ c ∈ [({ name := "Portraits", slug := "portraits", description := none,
               cover_url := none } : Category)],
        c.slug = "portraits") ∧
    create_category ⟨[{ name := "Portraits", slug := "portraits", description := none,
                        cover_url := none }], [], []⟩
        { name := "Different Name", slug := "portraits",
          description := some "other fields differ", cover_url := none } =
      (Except.error ⟨400, "Category slug already exists"⟩,
       ⟨[{ name := "Portraits", slug := "portraits", description := none,
           cover_url := none }], [], []⟩) :=
  ⟨⟨_, List.mem_singleton.mpr rfl, rfl⟩,
   (C4_duplicate_slug_conflict
      ⟨[{ name := "Portraits", slug := "portraits", description := none,
          cover_url := none }], [], []⟩
      { name := "Different Name", slug := "portraits",
        description := some "other fields differ", cover_url := none }
      ⟨_, List.mem_singleton.mpr rfl, rfl⟩).1⟩

/-- Claim C6: POST /folders and POST /images reject a payload whose
category_slug references no stored category, leaving the store unchanged;
conversely whenever either create succeeds the referenced category was in
the store at creation time. -/
theorem C6_referential_integrity (db : DB) (f : Folder) (im : ImageRec)
    (new_oid : String) :
    ((∀ c ∈ db.categories, c.slug ≠ f.category_slug) →
       create_folder db f = (Except.error ⟨400, "Category not found"⟩, db)) ∧
    ((∀ c ∈ db.categories, c.slug ≠ im.category_slug) →
       create_image db new_oid im = (Except.error ⟨400, "Category not found"⟩, db)) ∧
    ((create_folder db f).1 = Except.ok () →
       ∃ c ∈ db.categories, c.slug = f.category_slug) ∧
    ((create_image db new_oid im).1 = Except.ok () →
       ∃ c ∈ db.categories, c.slug = im.category_slug) := by
  refine ⟨?_, ?_, ?_, ?_⟩
  · intro h
    unfold create_folder
    rw [find_slug_none db.categories f.category_slug h]
    rfl
  · intro h
    unfold create_image
    rw [find_slug_none db.categories im.category_slug h]
    rfl
  · intro hok
    by_contra hno
    push_neg at hno
    have := find_slug_none db.categories f.category_slug hno
    unfold create_folder at hok
    rw [this] at hok
    simp at hok
  · intro hok
    by_contra hno
    push_neg at hno
    have := find_slug_none db.categories im.category_slug hno
    unfold create_image at hok
    rw [this] at hok
    simp at hok

theorem C6_referential_integrity_w :
    create_folder ⟨[], [], []⟩
        { name := "F", slug := "f", category_slug := "ghost",
          parent_id := none, description := none } =
      (Except.error ⟨400, "Category not found"⟩, ⟨[], [], []⟩) ∧
    create_image ⟨[], [], []⟩ "507f1f77bcf86cd799439011"
        { url := "https://x/y.jpg", alt := none, width := none, height := none,
          category_slug := "ghost", folder_id := none, tags := none } =
      (Except.error ⟨400, "Category not found"⟩, ⟨[], [], []⟩) := by
  have h := C6_referential_integrity ⟨[], [], []⟩
    { name := "F", slug := "f", category_slug := "ghost",
      parent_id := none, description := none }
    { url := "https://x/y.jpg", alt := none, width := none, height := none,
      category_slug := "ghost", folder_id := none, tags := none }
    "507f1f77bcf86cd799439011"
  exact ⟨h.1 (by intro c hc; simp at hc), h.2.1 (by intro c hc; simp at hc)⟩

/-- The HTTP status a handler response is sent with (200 on success). -/
def response_status (r : Except HTTPError Bool) : Nat :=
  match r with
  | Except.error e => e.status
  | Except.ok _ => 200

/-- Claim C5, counterexample: DELETE /images/not-an-objectid on a store
holding one image is answered with status 400 (detail "Invalid image id"),
not with the 404 the claim asserts for malformed ids. -/
theorem C5_malformed_id_counterexample :
    response_status
      (delete_image
        ⟨[], [], [⟨"0123456789abcdef01234567",
          { url := "https://h/uploads/a.jpg", alt := none, width := none,
            height := none, category_slug := "portraits", folder_id := none,
            tags := none }⟩]⟩
        ["a.jpg"] "not-an-objectid").1 = 400 ∧
    response_status
      (delete_image
        ⟨[], [], [⟨"0123456789abcdef01234567",
          { url := "https://h/uploads/a.jpg", alt := none, width := none,
            height := none, category_slug := "portraits", folder_id := none,
            tags := none }⟩]⟩
        ["a.jpg"] "not-an-objectid").1 ≠ 404 := by
  have h400 : response_status
      (delete_image
        ⟨[], [], [⟨"0123456789abcdef01234567",
          { url := "https://h/uploads/a.jpg", alt := none, width := none,
            height := none, category_slug := "portraits", folder_id := none,
            tags := none }⟩]⟩
        ["a.jpg"] "not-an-objectid").1 = 400 := rfl
  refine ⟨h400, ?_⟩
  rw [h400]
  decide

/-- Claim C5, amended: a malformed id is answered with 400 and a well-formed
but unknown id with 404, in both cases deleting nothing; a matching id has
its record removed and true returned, for every state of the uploads
directory (file-removal failures are swallowed), in particular when the
file is already missing. -/
theorem C5_delete_image_amended (db : DB) (fs : List String) (image_id : String) :
    (objectid_is_valid image_id = false →
       delete_image db fs image_id = (Except.error ⟨400, "Invalid image id"⟩, db, fs)) ∧
    (objectid_is_valid image_id = true →
     db.images.find? (fun i => oidEq i.oid image_id) = none →
       delete_image db fs image_id = (Except.error ⟨404, "Image not found"⟩, db, fs)) ∧
    (∀ doc, objectid_is_valid image_id = true →
     db.images.find? (fun i => oidEq i.oid image_id) = some doc →
       (delete_image db fs image_id).1 = Except.ok true ∧
       (delete_image db fs image_id).2.1.images =
         db.images.eraseP (fun i => oidEq i.oid image_id)) := by
  refine ⟨?_, ?_, ?_⟩
  · intro h
    unfold delete_image
    rw [h]
    rfl
  · intro h1 h2
    unfold delete_image
    rw [h1, h2]
    rfl
  · intro doc h1 h2
    unfold delete_image
    rw [h1, h2]
    exact ⟨rfl, rfl⟩

theorem C5_delete_image_amended_w :
    objectid_is_valid "not-an-objectid" = false ∧
    delete_image ⟨[], [], []⟩ [] "not-an-objectid" =
      (Except.error ⟨400, "Invalid image id"⟩, ⟨[], [], []⟩, []) :=
  ⟨by decide,
   (C5_delete_image_amended ⟨[], [], []⟩ [] "not-an-objectid").1 (by decide)⟩

theorem read_chunks_overflow (mu : Nat) (chunks : List Nat) (rt buf : Nat)
    (hnz : ∀ c ∈ chunks, c ≠ 0) (hbuf : buf ≤ rt) (hrt : rt ≤ mu * 1024 * 1024)
    (hbig : rt + chunks.sum > mu * 1024 * 1024) :
    ∃ rt2 buf2,
      read_chunks mu chunks rt buf =
        (Except.error ⟨413, too_large_detail mu⟩, rt2, buf2) ∧
      buf2 ≤ mu * 1024 * 1024 ∧ buf2 < buf + chunks.sum := by
  induction chunks generalizing rt buf with
  | nil =>
    simp only [List.sum_nil] at hbig
    omega
  | cons c rest ih =>
    have hc : c ≠ 0 := hnz c (List.mem_cons_self c rest)
    have hcsum : (c :: rest).sum = c + rest.sum := List.sum_cons
    unfold read_chunks
    rw [if_neg (by simpa using hc)]
    by_cases hover : rt + c > mu * 1024 * 1024
    · rw [if_pos hover]
      refine ⟨rt + c, buf, rfl, le_trans hbuf hrt, ?_⟩
      omega
    · rw [if_neg hover]
      have hrest : ∀ x ∈ rest, x ≠ 0 := fun x hx => hnz x (List.mem_cons_of_mem c hx)
      obtain ⟨rt2, buf2, heq, hle, hlt⟩ :=
        ih (rt + c) (buf + c) hrest (by omega) (by omega) (by omega)
      exact ⟨rt2, buf2, heq, hle, by omega⟩

theorem read_chunks_ok (mu : Nat) (chunks : List Nat) (rt buf : Nat)
    (h : rt + chunks.sum ≤ mu * 1024 * 1024) :
    ∃ rt2 buf2, read_chunks mu chunks rt buf = (Except.ok (), rt2, buf2) := by
  induction chunks generalizing rt buf with
  | nil => exact ⟨rt, buf, rfl⟩
  | cons c rest ih =>
    unfold read_chunks
    by_cases hc : c = 0
    · rw [if_pos (by simpa using hc)]
      exact ⟨rt, buf, rfl⟩
    · rw [if_neg (by simpa using hc)]
      have hcsum : (c :: rest).sum = c + rest.sum := List.sum_cons
      have hno : ¬ (rt + c > mu * 1024 * 1024) := by omega
      rw [if_neg hno]
      exact ih (rt + c) (buf + c) (by omega)

/-- Claim C3: an upload (with an allowed declared content type) whose chunks
sum to more than the configured cap is answered 413 the moment the running
count crosses the cap: the trace shows no file write, at most the cap many
bytes buffered, and strictly fewer bytes buffered than the full body. -/
theorem C3_payload_too_large
    (mu cap jq wq : Nat) (ct : Option String) (chunks : List Nat)
    (decoded : Option PILImage)
    (hct : allowed_image_types.contains (str_lower (ct.getD "")) = true)
    (hnz : ∀ c ∈ chunks, c ≠ 0)
    (hbig : chunks.sum > mu * 1024 * 1024) :
    ∃ rt buf,
      upload_image mu cap jq wq ct chunks decoded =
        (Except.error ⟨413, too_large_detail mu⟩, ⟨rt, buf, false, false, false⟩) ∧
      buf ≤ mu * 1024 * 1024 ∧ buf < chunks.sum := by
  obtain ⟨rt2, buf2, heq, hle, hlt⟩ :=
    read_chunks_overflow mu chunks 0 0 hnz (Nat.le_refl 0) (Nat.zero_le _) (by omega)
  refine ⟨rt2, buf2, ?_, hle, by omega⟩
  unfold upload_image
  dsimp only
  rw [hct]
  simp only [Bool.not_true]
  rw [if_neg (by decide)]
  rw [heq]

theorem C3_payload_too_large_w :
    allowed_image_types.contains (str_lower ((some "image/jpeg").getD "")) = true ∧
    (∀ c ∈ [36700160, 1048576], c ≠ 0) ∧
    ([36700160, 1048576] : List Nat).sum > 35 * 1024 * 1024 ∧
    (∃ rt buf,
      upload_image 35 4096 92 92 (some "image/jpeg") [36700160, 1048576] none =
        (Except.error ⟨413, too_large_detail 35⟩, ⟨rt, buf, false, false, false⟩) ∧
      buf ≤ 35 * 1024 * 1024 ∧ buf < ([36700160, 1048576] : List Nat).sum) :=
  ⟨by decide, by decide, by decide,
   C3_payload_too_large 35 4096 92 92 (some "image/jpeg") [36700160, 1048576] none
     (by decide) (by decide) (by decide)⟩

/-- Claim C9: an upload (with an allowed declared content type, body within
the size cap) whose accumulated bytes Pillow cannot decode — in particular a
zero-byte body — fails with the invalid-image 400; the trace shows the
resize step was never reached and no file was written. -/
theorem C9_undecodable_rejected
    (mu cap jq wq : Nat) (ct : Option String) (chunks : List Nat)
    (hct : allowed_image_types.contains (str_lower (ct.getD "")) = true)
    (hsz : chunks.sum ≤ mu * 1024 * 1024) :
    ∃ rt buf,
      upload_image mu cap jq wq ct chunks none =
        (Except.error ⟨400, "Invalid or unsupported image"⟩,
         ⟨rt, buf, true, false, false⟩) := by
  obtain ⟨rt2, buf2, heq⟩ := read_chunks_ok mu chunks 0 0 (by omega)
  refine ⟨rt2, buf2, ?_⟩
  unfold upload_image
  dsimp only
  rw [hct]
  simp only [Bool.not_true]
  rw [if_neg (by decide)]
  rw [heq]

theorem C9_undecodable_rejected_w :
    allowed_image_types.contains (str_lower ((some "image/png").getD "")) = true ∧
    ([] : List Nat).sum ≤ 35 * 1024 * 1024 ∧
    (∃ rt buf,
      upload_image 35 4096 92 92 (some "image/png") [] none =
        (Except.error ⟨400, "Invalid or unsupported image"⟩,
         ⟨rt, buf, true, false, false⟩)) :=
  ⟨by decide, by decide,
   C9_undecodable_rejected 35 4096 92 92 (some "image/png") [] (by decide) (by decide)⟩

theorem seed_loop_extends (cats : List Category) (db : DB) :
    ∃ l, (seed_loop cats db).1.categories = db.categories ++ l := by
  induction cats generalizing db with
  | nil => exact ⟨[], by simp [seed_loop]⟩
  | cons cat rest ih =>
    unfold seed_loop
    by_cases h : (db.categories.find? (fun c => c.slug == cat.slug)).isSome = true
    · rw [if_pos h]
      exact ih db
    · rw [if_neg h]
      dsimp only
      obtain ⟨l, hl⟩ := ih { db with categories := db.categories ++ [cat] }
      refine ⟨cat :: l, ?_⟩
      rw [hl]
      simp

theorem slug_present_seed_loop (cats : List Category) (db : DB) (s : String)
    (h : ∃ c ∈ db.categories, c.slug = s) :
    ∃ c ∈ (seed_loop cats db).1.categories, c.slug = s := by
  obtain ⟨l, hl⟩ := seed_loop_extends cats db
  rw [hl]
  obtain ⟨c, hc, hs⟩ := h
  exact ⟨c, List.mem_append_left _ hc, hs⟩

theorem seed_loop_all_present (cats : List Category) (db : DB) :
    ∀ cat ∈ cats, ∃ c ∈ (seed_loop cats db).1.categories, c.slug = cat.slug := by
  induction cats generalizing db with
  | nil =>
    intro cat hcat
    simp at hcat
  | cons hd rest ih =>
    intro cat hcat
    unfold seed_loop
    by_cases h : (db.categories.find? (fun c => c.slug == hd.slug)).isSome = true
    · rw [if_pos h]
      rcases List.mem_cons.mp hcat with rfl | hmem
      · have hpres : ∃ c ∈ db.categories, c.slug = cat.slug := by
          rw [List.find?_isSome] at h
          obtain ⟨c, hc, hp⟩ := h
          exact ⟨c, hc, beq_iff_eq.mp hp⟩
        exact slug_present_seed_loop rest db _ hpres
      · exact ih db cat hmem
    · rw [if_neg h]
      dsimp only
      rcases List.mem_cons.mp hcat with rfl | hmem
      · exact slug_present_seed_loop rest _ _ ⟨cat, by simp, rfl⟩
      · exact ih _ cat hmem

theorem seed_loop_nop (cats : List Category) (db : DB)
    (h : ∀ cat ∈ cats, ∃ c ∈ db.categories, c.slug = cat.slug) :
    seed_loop cats db = (db, 0) := by
  induction cats with
  | nil => rfl
  | cons hd rest ih =>
    unfold seed_loop
    rw [if_pos (find_slug_isSome db.categories hd.slug (h hd (List.mem_cons_self hd rest)))]
    exact ih (fun cat hcat => h cat (List.mem_cons_of_mem hd hcat))

/-- Claim C7: with the correct owner key, a second successive seed call
creates zero records and leaves the store where the first call put it; with
an incorrect owner key the call is rejected as unauthorized and the store is
unchanged. -/
theorem C7_seed_idempotent (k wk : String) (db : DB)
    (hk : k ≠ "") (hwk : wk ≠ k) :
    (admin_seed (some k) k ((admin_seed (some k) k db).2)).1 =
      Except.ok (0, ((admin_seed (some k) k db).2).categories.length) ∧
    (admin_seed (some k) k ((admin_seed (some k) k db).2)).2 =
      (admin_seed (some k) k db).2 ∧
    admin_seed (some k) wk db = (Except.error ⟨401, "Unauthorized"⟩, db) := by
  have hcond : (k == "" || k != k) = false := by
    simp [hk]
  have hgood : ∀ d : DB, admin_seed (some k) k d =
      (Except.ok ((seed_loop base_categories d).2,
        (seed_loop base_categories d).1.categories.length),
       (seed_loop base_categories d).1) := by
    intro d
    unfold admin_seed
    dsimp only
    rw [hcond]
    rfl
  have hsecond : seed_loop base_categories (seed_loop base_categories db).1 =
      ((seed_loop base_categories db).1, 0) :=
    seed_loop_nop base_categories (seed_loop base_categories db).1
      (seed_loop_all_present base_categories db)
  refine ⟨?_, ?_, ?_⟩
  · rw [hgood db, hgood ((seed_loop base_categories db).1)]
    dsimp only
    rw [hsecond]
  · rw [hgood db, hgood ((seed_loop base_categories db).1)]
    dsimp only
    rw [hsecond]
  · have hbad : (k == "" || wk != k) = true := by
      simp [hwk]
    unfold admin_seed
    dsimp only
    rw [hbad]
    rfl

theorem C7_seed_idempotent_w :
    ("owner-secret" : String) ≠ "" ∧ ("wrong" : String) ≠ "owner-secret" ∧
    ((admin_seed (some "owner-secret") "owner-secret"
        ((admin_seed (some "owner-secret") "owner-secret" ⟨[], [], []⟩).2)).1 =
      Except.ok (0,
        ((admin_seed (some "owner-secret") "owner-secret" ⟨[], [], []⟩).2).categories.length) ∧
     (admin_seed (some "owner-secret") "owner-secret"
        ((admin_seed (some "owner-secret") "owner-secret" ⟨[], [], []⟩).2)).2 =
      (admin_seed (some "owner-secret") "owner-secret" ⟨[], [], []⟩).2 ∧
     admin_seed (some "owner-secret") "wrong" ⟨[], [], []⟩ =
      (Except.error ⟨401, "Unauthorized"⟩, ⟨[], [], []⟩)) :=
  ⟨by decide, by decide,
   C7_seed_idempotent "owner-secret" "wrong" ⟨[], [], []⟩ (by decide) (by decide)⟩

end PBA
